import Mathlib

/-!
# Verification of the shipment reporting core

A shallow embedding of the leg-classification, on-time evaluation,
deduplication, aggregation, market-extraction, trend-analysis and
data-quality components of the `custom_reports` repository, together with
theorems settling the specification claims C1-C10.

Rows of the `otp_reports` table are modelled as structures with `Option`
fields for nullable columns; SQL three-valued logic is reflected by making
a NULL comparison evaluate to `false` (not-selected), and pandas `NaT`
comparisons likewise evaluate to `false`.  Money amounts are rationals
(the floats in play are sums and differences of decimals; the one place
where genuine IEEE behaviour matters - division producing infinities in
the Profit-by-Lane margin column - is modelled by the `PFloat` type).
-/

/-! ## Generic helpers -/

/-- SQL `SUBSTRING(s, start, len)`: one-indexed substring of length `len`. -/
def sqlSubstring (s : String) (start len : Nat) : String :=
  String.mk ((s.data.drop (start - 1)).take len)

/-- The remainder of `s` strictly after the first occurrence of `p`,
or `none` when `p` does not occur in `s`. -/
def remainderAfter (p : List Char) : List Char → Option (List Char)
  | [] => if p.isEmpty then some [] else none
  | c :: rest =>
      if p.isPrefixOf (c :: rest) then some ((c :: rest).drop p.length)
      else remainderAfter p rest

/-- Does `p` occur as a contiguous substring of `s`?  This is SQL
`s LIKE '%p%'` (for a pattern piece `p` without wildcards). -/
def strContainsSub (s p : String) : Bool :=
  (remainderAfter p.data s.data).isSome

/-- SQL `s LIKE 'p%'`: `p` (wildcard-free) is a prefix of `s`. -/
def likeStarts (s p : String) : Bool :=
  p.data.isPrefixOf s.data

/-- Core of `likeContains`, walking the remaining input. -/
def likeContainsChars : List Char → List String → Bool
  | _, [] => true
  | s, p :: ps =>
      match remainderAfter p.data s with
      | none => false
      | some rest => likeContainsChars rest ps

/-- SQL `s LIKE '%p₁%p₂%...%'`: the pieces occur in `s` in order,
without overlapping. -/
def likeContains (s : String) (ps : List String) : Bool :=
  likeContainsChars s.data ps

/-- Round to the nearest integer, ties to even: the rounding used by
numpy / pandas `round`. -/
def roundHalfEven (q : ℚ) : ℤ :=
  let f := ⌊q⌋
  let r := q - f
  if r < 1 / 2 then f
  else if 1 / 2 < r then f + 1
  else if f % 2 = 0 then f else f + 1

/-- pandas `Series.round(d)`: round to `d` decimal places, ties to even. -/
def roundTo (d : Nat) (q : ℚ) : ℚ :=
  (roundHalfEven (q * 10 ^ d) : ℚ) / 10 ^ d

/-- Strict lexicographic code-point order on character lists (the
ordering pandas uses on string group keys). -/
def lexLtChars : List Char → List Char → Bool
  | [], [] => false
  | [], _ :: _ => true
  | _ :: _, [] => false
  | a :: as, b :: bs => if a = b then lexLtChars as bs else decide (a.toNat < b.toNat)

/-- Non-strict string comparison derived from `lexLtChars`. -/
def strLe (s t : String) : Bool :=
  !lexLtChars t.data s.data

/-- Stable insertion of a string into a sorted list (ascending). -/
def insertSorted (s : String) : List String → List String
  | [] => [s]
  | x :: xs => if strLe s x then s :: x :: xs else x :: insertSorted s xs

/-- Sort a list of strings ascending, as pandas `groupby` sorts its keys. -/
def sortStrings (l : List String) : List String :=
  l.foldr insertSorted []

/-- Split a character list on a separator character (the behaviour of
`str.split` on the single-character separators used here). -/
def splitOnChar (sep : Char) : List Char → List (List Char)
  | [] => [[]]
  | c :: rest =>
      let r := splitOnChar sep rest
      if c = sep then [] :: r
      else
        match r with
        | x :: xs => (c :: x) :: xs
        | [] => [[c]]

/-- Is `c` an ASCII decimal digit? -/
def isDigitChar (c : Char) : Bool :=
  decide ('0' ≤ c) && decide (c ≤ '9')

/-- Numeric value of a non-empty all-digit character list. -/
def digitsToNat (cs : List Char) : Option Nat :=
  if cs.isEmpty then none
  else if cs.all isDigitChar then
    some (cs.foldl (fun a c => a * 10 + (c.toNat - 48)) 0)
  else none

/-- The elements of `l` standing at positions that pandas
`Series.duplicated()` marks: every occurrence after the first of its
value, in input order. -/
def dupOccurrences : List String → List String → List String
  | [], _ => []
  | x :: xs, seen =>
      if seen.contains x then x :: dupOccurrences xs seen
      else dupOccurrences xs (x :: seen)

/-! ## Field Normalizer: timestamp parsing

`src/kith_shipments_app.py`, `src/ACCL OTP_OTD/app.py` and
`src/Customer_OTP_OTD/otp_otd_app.py` all delegate timestamp parsing to
external collaborators (`STR_TO_DATE(_, '%m/%d/%Y %H:%i:%s')` in MySQL,
`pandas.to_datetime`). -/

/-- Modelled from the spec: the external timestamp parser (MySQL
`STR_TO_DATE` with format `%m/%d/%Y %H:%i:%s`, `pandas.to_datetime`) that
the source delegates to and that is not code of this repository.  Per the
spec, the Field Normalizer accepts the `MM/DD/YYYY HH:MM:SS` textual
format, and unparseable or empty strings map to "no timestamp" - failure
never raises, it yields an absent value.  A parsed timestamp is encoded
as seconds on a scale linear in (year, month, day, time-of-day), so `≤`
agrees with chronological order and `t / 86400` is the calendar-day
index used for midnight normalization. -/
def parseTimestamp (s : String) : Option Nat :=
  match splitOnChar ' ' s.data with
  | [d, t] =>
      match splitOnChar '/' d, splitOnChar ':' t with
      | [mm, dd, yyyy], [hh, mi, ss] =>
          match digitsToNat mm, digitsToNat dd, digitsToNat yyyy,
                digitsToNat hh, digitsToNat mi, digitsToNat ss with
          | some m, some day, some y, some h, some minute, some sec =>
              if 1 ≤ m ∧ m ≤ 12 ∧ 1 ≤ day ∧ day ≤ 31 ∧ h < 24 ∧ minute < 60 ∧ sec < 60 then
                some ((y * 372 + (m - 1) * 31 + (day - 1)) * 86400
                      + h * 3600 + minute * 60 + sec)
              else none
          | _, _, _, _, _, _ => none
      | _, _ => none
  | _ => none

/-- MySQL `STR_TO_DATE` applied to a nullable column: NULL stays NULL. -/
def sqlStrToDate (v : Option String) : Option Nat :=
  v.bind parseTimestamp

/-- `pandas.to_datetime(_, errors='coerce')` on a nullable field:
missing or unparseable input coerces to `NaT` (`none`). -/
def pandasToDatetime (v : Option String) : Option Nat :=
  v.bind parseTimestamp

/-- SQL `a <= b` on nullable timestamps: NULL on either side makes the
comparison not-true (three-valued logic collapses to `false` in a
`CASE WHEN`). -/
def sqlTimestampLe (a b : Option Nat) : Bool :=
  match a, b with
  | some x, some y => decide (x ≤ y)
  | _, _ => false

/-! ## On-Time Evaluator, Customer variant
(`src/Customer_OTP_OTD/otp_otd_app.py`, `run_otp_otd_query`).

The SQL `CASE` computing `OTP_Status` / `OTD_Status`:

    CASE
      WHEN timeArrived IS NULL OR timeArrived = '' THEN '<no-data label>'
      WHEN STR_TO_DATE(timeArrived, ...) <= STR_TO_DATE(windowTo, ...)
        THEN 'On Time'
      ELSE 'Late'
    END
-/

/-- The shared `CASE` shape of the two status columns. -/
def customerOnTimeCase (noDataLabel : String)
    (timeArrived windowTo : Option String) : String :=
  match timeArrived with
  | none => noDataLabel
  | some s =>
      if s = "" then noDataLabel
      else if sqlTimestampLe (parseTimestamp s) (sqlStrToDate windowTo) then "On Time"
      else "Late"

/-- `OTP_Status` of `run_otp_otd_query`. -/
def otpStatusCustomer (pickTimeArrived pickWindowTo : Option String) : String :=
  customerOnTimeCase "No Pickup Data" pickTimeArrived pickWindowTo

/-- `OTD_Status` of `run_otp_otd_query`. -/
def otdStatusCustomer (dropTimeArrived dropWindowTo : Option String) : String :=
  customerOnTimeCase "No Delivery Data" dropTimeArrived dropWindowTo

/-! ## On-Time Evaluator, ACCL variant
(`src/ACCL OTP_OTD/app.py`, `calculate_transit_times`).

    actual_date = actual.dt.normalize(); sched_date = sched.dt.normalize()
    status = (actual_date > sched_date).map({True: 'Late', False: 'On Time'})
    days_late = (actual_date - sched_date).dt.days, clamped below at 0

A pandas comparison involving `NaT` is `False`. -/

/-- `Timestamp.normalize()`: truncate to midnight. -/
def normalizeDate (t : Nat) : Nat :=
  t / 86400 * 86400

/-- The pandas comparison `actual.normalize() > sched.normalize()`;
`NaT` on either side gives `false`. -/
def pandasGtNormalized (actual sched : Option Nat) : Bool :=
  match actual, sched with
  | some a, some s => decide (normalizeDate s < normalizeDate a)
  | _, _ => false

/-- The `OTP` / `OTD` column of `calculate_transit_times`, on already
converted (`to_datetime`-coerced) values. -/
def acclStatus (actual sched : Option Nat) : String :=
  if pandasGtNormalized actual sched then "Late" else "On Time"

/-- The same status computed from the raw text fields, composing the
coercion the source applies first. -/
def acclStatusRaw (actual sched : Option String) : String :=
  acclStatus (pandasToDatetime actual) (pandasToDatetime sched)

/-- The `... Days Late` column: day difference of the normalized dates,
entries below zero set to 0; `NaT` propagates. -/
def acclDaysLate (actual sched : Option Nat) : Option Int :=
  match actual, sched with
  | some a, some s =>
      some (max ((normalizeDate a : Int) / 86400 - (normalizeDate s : Int) / 86400) 0)
  | _, _ => none

/-! ## Deduplicator (`src/kith_shipments_app.py`).

The query behind `get_shipments_data` keeps only rows whose raw
`pickDateArrived` is non-NULL, non-empty and parses under
`STR_TO_DATE(_, '%m/%d/%Y')` (an unparseable raw value turns the `WHERE`
date-range comparison NULL, excluding the row), so every row reaching
`deduplicate_order` carries a parsed arrival date. -/

/-- One row of the KITH shipments result set. -/
structure KithRow where
  orderCode : String
  dropLocationName : Option String
  pickDateArrived : Nat
deriving DecidableEq

/-- `is_warehouse`: a location is a warehouse iff it starts with `WTCH-`;
a missing or empty location is not a warehouse. -/
def isWarehouseLoc : Option String → Bool
  | none => false
  | some loc => if loc = "" then false else likeStarts loc "WTCH-"

/-- `group['pickDateArrived'].max()` over one order group. -/
def maxArrived (g : List KithRow) : Nat :=
  (g.map (·.pickDateArrived)).foldl max 0

/-- `latest_rows`: the rows of the group tied at the maximum date,
in stable input order. -/
def latestRows (g : List KithRow) : List KithRow :=
  g.filter (fun r => r.pickDateArrived = maxArrived g)

/-- `non_warehouse`: the rows of `latest_rows` whose drop location is
not a warehouse, in stable input order. -/
def nonWarehouseLatest (g : List KithRow) : List KithRow :=
  (latestRows g).filter (fun r => !isWarehouseLoc r.dropLocationName)

/-- `deduplicate_order`: the single canonical row kept for one order
group (`none` only on the empty group, which pandas `groupby.apply`
never produces). -/
def deduplicateOrder (g : List KithRow) : Option KithRow :=
  match latestRows g with
  | [] => none
  | [r] => some r
  | _ :: _ :: _ =>
      match nonWarehouseLatest g with
      | [] => (latestRows g).head?
      | r :: _ => some r

/-! ## Leg Classifier (`src/Profit by Lane /app.py`,
`get_profit_by_lane_data`, "All" shipment-type branch).

    WITH order_row_counts AS (
      SELECT orderCode, shipmentType, COUNT(*) as total_rows, ...
      FROM otp_reports WHERE <base_where>
      GROUP BY orderCode, shipmentType
    ),
    filtered_rows AS (
      SELECT o.* FROM otp_reports o
      JOIN order_row_counts orc ON o.orderCode = orc.orderCode
      WHERE <base_where> AND (
           o.shipmentType = 'Full Truckload'
        OR (o.shipmentType = 'Less Than Truckload'
            AND orc.total_rows > 1 AND o.mainShipment = 'NO')
        OR (o.shipmentType = 'Less Than Truckload' AND orc.total_rows = 1)
        OR (o.shipmentType NOT IN ('Full Truckload', 'Less Than Truckload')
            AND o.mainShipment = 'YES')))

`df` below stands for the base-`WHERE`-selected rows.  Note that the CTE
groups by `(orderCode, shipmentType)` but the join condition is on
`orderCode` alone, so a row is matched against the count of EVERY
type-group of its order. -/

/-- One base-selected row, with the fields the classification reads. -/
structure LaneRow where
  orderCode : String
  shipmentType : Option String
  mainShipment : Option String
deriving DecidableEq

/-- The distinct `(orderCode, shipmentType)` groups of the order `o`
present in `df` (SQL `GROUP BY orderCode, shipmentType`; NULL is its own
group). -/
def orderTypeGroups (df : List LaneRow) (o : String) : List (Option String) :=
  ((df.filter (fun r => r.orderCode = o)).map (·.shipmentType)).dedup

/-- `total_rows` of the group `(o, t)`: how many base-selected rows the
order has with that shipment type. -/
def groupTotalRows (df : List LaneRow) (o : String) (t : Option String) : Nat :=
  (df.filter (fun r => r.orderCode = o ∧ r.shipmentType = t)).length

/-- The `WHERE` disjunction of `filtered_rows`, for a row joined against
a type-group with `totalRows` rows.  SQL semantics on NULL: equality with
a literal and `NOT IN` a literal list are not-true on NULL. -/
def laneFilterCond (r : LaneRow) (totalRows : Nat) : Bool :=
  (r.shipmentType = some "Full Truckload")
  || (r.shipmentType = some "Less Than Truckload" && 1 < totalRows
      && r.mainShipment = some "NO")
  || (r.shipmentType = some "Less Than Truckload" && totalRows = 1)
  || ((match r.shipmentType with
       | none => false
       | some t => !(t = "Full Truckload" || t = "Less Than Truckload"))
      && r.mainShipment = some "YES")

/-- A row is billable (appears in `filtered_rows`) iff the join finds
some type-group of its order for which the filter condition holds. -/
def laneBillable (df : List LaneRow) (r : LaneRow) : Bool :=
  (orderTypeGroups df r.orderCode).any
    (fun t => laneFilterCond r (groupTotalRows df r.orderCode t))

/-! ## Profit-by-Lane margin column (`src/Profit by Lane /app.py`):

    df['margin_pct'] =
      (df['total_profit'] / df['total_revenue'] * 100).fillna(0).round(1)

`total_profit` and `total_revenue` are SQL decimal sums converted to
float64; the division is IEEE: `x / 0` is `±inf` for `x ≠ 0` and `NaN`
for `x = 0`, and `.fillna(0)` replaces only `NaN`. -/

/-- A float64 value in the range of behaviours this computation can
produce: a (finite, exactly represented) rational, an infinity, or NaN. -/
inductive PFloat where
  | val (q : ℚ)
  | inf
  | ninf
  | nan
deriving DecidableEq

/-- IEEE division of finite values, covering the zero-divisor cases. -/
def PFloat.div : PFloat → PFloat → PFloat
  | val a, val b =>
      if b = 0 then (if a = 0 then nan else if 0 < a then inf else ninf)
      else val (a / b)
  | nan, _ => nan
  | _, nan => nan
  | inf, val _ => inf
  | ninf, val _ => ninf
  | _, _ => nan

/-- Multiplication by the positive literal 100. -/
def PFloat.mul100 : PFloat → PFloat
  | val a => val (a * 100)
  | inf => inf
  | ninf => ninf
  | nan => nan

/-- pandas `.fillna(0)`: replaces `NaN` (not infinities). -/
def PFloat.fillna0 : PFloat → PFloat
  | nan => val 0
  | x => x

/-- pandas `.round(1)`: infinities and `NaN` round to themselves. -/
def PFloat.round1 : PFloat → PFloat
  | val a => val (roundTo 1 a)
  | x => x

/-- SQL `total_profit` of a lane group: revenue sum minus cost sum. -/
def laneTotalProfit (totalRevenue totalCost : ℚ) : ℚ :=
  totalRevenue - totalCost

/-- The `margin_pct` column of the Profit-by-Lane summary. -/
def laneMarginPct (totalProfit totalRevenue : ℚ) : PFloat :=
  (((PFloat.val totalProfit).div (PFloat.val totalRevenue)).mul100).fillna0.round1

/-! ## Aggregator and Data-Quality Auditor
(`src/profit_by_location_app.py`). -/

/-- One row of `get_raw_data`, after `to_numeric(...).fillna(0)` on the
two money columns.  The leg identifier `warpId` is the always-present
unique leg key; `loadId` (the order identifier) is nullable. -/
structure LocRow where
  pickZipcode : Option String
  dropZipcode : Option String
  customerRoute : Option String
  loadId : Option String
  warpId : String
  revenueAllocationNumber : ℚ
  costAllocationNumber : ℚ
  shipmentType : Option String
  mainShipment : Option String
deriving DecidableEq

/-- `warp_count`: distinct `warpId`s sharing the row's `loadId`
(`df.groupby('loadId')['warpId'].nunique()`). -/
def warpCount (df : List LocRow) (lid : String) : Nat :=
  ((df.filter (fun r => r.loadId = some lid)).map (·.warpId)).dedup.length

/-- `count_for_shipment`: the negated triple condition of `get_raw_data`.
pandas `groupby('loadId')` drops null keys, so a row with null `loadId`
gets a `NaN` `warp_count` after the merge and `NaN > 1` is `False`. -/
def countForShipment (df : List LocRow) (r : LocRow) : Bool :=
  !((match r.loadId with
     | none => false
     | some lid => 1 < warpCount df lid)
    && r.shipmentType = some "Less Than Truckload"
    && r.mainShipment = some "YES")

/-- One output row of `aggregate_by_column`. -/
structure AggRow where
  Total_Revenue : ℚ
  Total_Cost : ℚ
  Margin : ℚ
  Shipment_Count : Nat
deriving DecidableEq

/-- `aggregate_by_column` at one grouping key `k` drawn from the chosen
key column (pandas `groupby` drops rows whose key is null): revenue and
cost are summed with `'sum'` over the group, the shipment count is the
number of distinct `warpId`s among the group rows whose
`count_for_shipment` flag is true, margin is revenue minus cost, and the
three money columns are rounded to two decimals. -/
def aggregateByColumn (df : List LocRow) (key : LocRow → Option String)
    (k : String) : AggRow :=
  let g := df.filter (fun r => key r = some k)
  let rev := (g.map (·.revenueAllocationNumber)).sum
  let cost := (g.map (·.costAllocationNumber)).sum
  { Total_Revenue := roundTo 2 rev
    Total_Cost := roundTo 2 cost
    Margin := roundTo 2 (rev - cost)
    Shipment_Count :=
      ((g.filter (fun r => countForShipment df r)).map (·.warpId)).dedup.length }

/-- A quality finding: the dict key, the occurrence counts quoted in its
description, and the sample list (`none` models a pandas `NaN` entry in
the list, e.g. a missing route shown among the `Route Pattern` samples). -/
structure Finding where
  name : String
  counts : List Nat
  samples : List (Option String)
deriving DecidableEq

/-- The sample-identifier builder shared by the route / zip / metadata
checks: up to 5 `loadId`s of flagged rows, topped up with synthetic
`warpId:<id>` identifiers from flagged rows whose `loadId` is absent. -/
def sampleIdentifiers (flagged : List LocRow) : List (Option String) :=
  let withLoad := ((flagged.filter (fun r => r.loadId.isSome)).filterMap (·.loadId)).take 5
  (withLoad.map some)
    ++ (((flagged.filter (fun r => r.loadId = none)).map
          (fun r => some ("warpId:" ++ r.warpId))).take (5 - withLoad.length))

/-- Null or empty customer route (`isna() | (== '')`). -/
def routeMissing (r : LocRow) : Bool :=
  r.customerRoute = none || r.customerRoute = some ""

/-- Two consecutive regex-`\s` whitespace characters somewhere in `s`
(`str.contains(r'\s{2,}')`). -/
def pyWhitespace (c : Char) : Bool :=
  c = ' ' || c = '\t' || c = '\n' || c = '\r' || c = '\x0b' || c = '\x0c'

/-- Core of the multiple-spaces test. -/
def hasDoubleWhitespace : List Char → Bool
  | a :: b :: rest => (pyWhitespace a && pyWhitespace b) || hasDoubleWhitespace (b :: rest)
  | _ => false

/-- `str.contains(r'\s{2,}', na=False)` on the route column. -/
def routeHasMultipleSpaces (r : LocRow) : Bool :=
  match r.customerRoute with
  | none => false
  | some s => hasDoubleWhitespace s.data

/-- `~str.contains('>', na=False)`: true for a route without the
separator AND for a missing route (`na=False` negated). -/
def routeLacksSeparator (r : LocRow) : Bool :=
  match r.customerRoute with
  | none => true
  | some s => !strContainsSub s ">"

/-- The distinct non-null `loadId`s of the frame, in the sorted order
pandas `groupby('loadId')` enumerates them. -/
def sortedLoadIds (df : List LocRow) : List String :=
  sortStrings (df.filterMap (·.loadId)).dedup

/-- Aggregate revenue of one load. -/
def loadRevenue (df : List LocRow) (lid : String) : ℚ :=
  ((df.filter (fun r => r.loadId = some lid)).map (·.revenueAllocationNumber)).sum

/-- Aggregate cost of one load. -/
def loadCost (df : List LocRow) (lid : String) : ℚ :=
  ((df.filter (fun r => r.loadId = some lid)).map (·.costAllocationNumber)).sum

/-- The `Missing Routes` check. -/
def missingRoutesFinding (df : List LocRow) : Option Finding :=
  let flagged := df.filter routeMissing
  if flagged.length = 0 then none
  else some ⟨"Missing Routes", [flagged.length], sampleIdentifiers flagged⟩

/-- The `Missing Zip Codes` check. -/
def missingZipsFinding (df : List LocRow) : Option Finding :=
  let nPick := (df.filter (fun r => r.pickZipcode = none)).length
  let nDrop := (df.filter (fun r => r.dropZipcode = none)).length
  if nPick = 0 ∧ nDrop = 0 then none
  else some ⟨"Missing Zip Codes", [nPick, nDrop],
    sampleIdentifiers (df.filter (fun r => r.pickZipcode = none || r.dropZipcode = none))⟩

/-- The `Revenue Issues` check, over load-level aggregates. -/
def revenueIssuesFinding (df : List LocRow) : Option Finding :=
  let keys := sortedLoadIds df
  let zcnt := (keys.filter (fun k => loadRevenue df k = 0)).length
  let neg := (keys.filter (fun k => loadRevenue df k < 0)).length
  if zcnt = 0 ∧ neg = 0 then none
  else some ⟨"Revenue Issues", [zcnt, neg],
    ((keys.filter (fun k => loadRevenue df k = 0 ∨ loadRevenue df k < 0)).take 5).map some⟩

/-- The `Cost Issues` check, over load-level aggregates. -/
def costIssuesFinding (df : List LocRow) : Option Finding :=
  let keys := sortedLoadIds df
  let zcnt := (keys.filter (fun k => loadCost df k = 0)).length
  let neg := (keys.filter (fun k => loadCost df k < 0)).length
  if zcnt = 0 ∧ neg = 0 then none
  else some ⟨"Cost Issues", [zcnt, neg],
    ((keys.filter (fun k => loadCost df k = 0 ∨ loadCost df k < 0)).take 5).map some⟩

/-- The `Duplicate Records` check (`warpId.duplicated()`). -/
def duplicateRecordsFinding (df : List LocRow) : Option Finding :=
  let marked := dupOccurrences (df.map (·.warpId)) []
  if marked.length = 0 then none
  else some ⟨"Duplicate Records", [marked.length], (marked.take 5).map some⟩

/-- The `Route Formatting` check. -/
def routeFormattingFinding (df : List LocRow) : Option Finding :=
  let flagged := df.filter routeHasMultipleSpaces
  if flagged.length = 0 then none
  else some ⟨"Route Formatting", [flagged.length],
    (flagged.map (·.customerRoute)).take 5⟩

/-- The `Route Pattern` check. -/
def routePatternFinding (df : List LocRow) : Option Finding :=
  let flagged := df.filter routeLacksSeparator
  if flagged.length = 0 then none
  else some ⟨"Route Pattern", [flagged.length],
    (flagged.map (·.customerRoute)).take 5⟩

/-- The `Missing Metadata` check. -/
def missingMetadataFinding (df : List LocRow) : Option Finding :=
  let nType := (df.filter (fun r => r.shipmentType = none)).length
  let nMain := (df.filter (fun r => r.mainShipment = none)).length
  if nType = 0 ∧ nMain = 0 then none
  else some ⟨"Missing Metadata", [nType, nMain],
    sampleIdentifiers (df.filter (fun r => r.shipmentType = none || r.mainShipment = none))⟩

/-- `run_data_quality_checks`: the findings dict, in insertion order. -/
def runDataQualityChecks (df : List LocRow) : List Finding :=
  [missingRoutesFinding df, missingZipsFinding df, revenueIssuesFinding df,
   costIssuesFinding df, duplicateRecordsFinding df, routeFormattingFinding df,
   routePatternFinding df, missingMetadataFinding df].filterMap id

/-! ## Field Normalizer, market extraction and the market-keyed
Aggregator / Trend Analyzer
(`src/financials_for_board_meeting/app.py`). -/

/-- `get_market_case`: the SQL `CASE` extracting a market code from a
location string, rules tried in order, first match wins; `NULL` input
matches no `LIKE` and falls to the `ELSE NULL`. -/
def getMarketCase : Option String → Option String
  | none => none
  | some l =>
      if likeStarts l "WTCH-" then some (sqlSubstring l 6 3)
      else if likeStarts l "ACCL-" then some (sqlSubstring l 6 3)
      else if likeStarts l "SB-ATL-" then some "ATL"
      else if likeStarts l "SB-DC-" then some "DCA"
      else if likeStarts l "SB-DAL-" then some "DFW"
      else if likeStarts l "SB-SEA-" then some "SEA"
      else if likeStarts l "SB-LA-" then some "LAX"
      else if likeStarts l "SB-DEN-" then some "DEN"
      else if likeStarts l "SB-NYC-" then some "EWR"
      else if likeStarts l "SB-PHX-" then some "PHX"
      else if likeStarts l "SB-MIA-" then some "MIA"
      else if likeContains l ["GoBolt", "NYC", "Cross-Dock"] then some "EWR"
      else if likeContains l ["Cross-Dock", "Chicago"] then some "ORD"
      else none

/-- The guard disjunction of `getMarketCase`: does any extraction rule
match the string? -/
def matchesMarketRule (l : String) : Bool :=
  likeStarts l "WTCH-" || likeStarts l "ACCL-" || likeStarts l "SB-ATL-"
  || likeStarts l "SB-DC-" || likeStarts l "SB-DAL-" || likeStarts l "SB-SEA-"
  || likeStarts l "SB-LA-" || likeStarts l "SB-DEN-" || likeStarts l "SB-NYC-"
  || likeStarts l "SB-PHX-" || likeStarts l "SB-MIA-"
  || likeContains l ["GoBolt", "NYC", "Cross-Dock"]
  || likeContains l ["Cross-Dock", "Chicago"]

/-- `is_crossdock`: the broader prefix-or-contains test; NULL matches
nothing. -/
def isCrossdock : Option String → Bool
  | none => false
  | some l =>
      likeStarts l "WTCH-" || likeStarts l "ACCL-" || likeStarts l "SB-"
      || strContainsSub l "Cross-Dock"

/-- One raw `otp_reports` row as read by the LTL market query. -/
structure FinRow where
  pickLocationName : Option String
  dropLocationName : Option String
  shipmentType : Option String
  mainShipment : Option String
  shipmentStatus : Option String
  pickWindowFrom : Option String
  warpId : String
  revenueAllocationNumber : ℚ
  pieces : ℚ
deriving DecidableEq

/-- The row-level `market` key of `ltl_query`:
`CASE WHEN pick_market IS NOT NULL THEN pick_market
      WHEN drop_market IS NOT NULL THEN drop_market END`. -/
def rowMarket (r : FinRow) : Option String :=
  match getMarketCase r.pickLocationName with
  | some m => some m
  | none => getMarketCase r.dropLocationName

/-- SQL `s LIKE '%/2025%'` on the nullable pick-window column. -/
def pickWindowIn2025 (r : FinRow) : Bool :=
  match r.pickWindowFrom with
  | none => false
  | some s => strContainsSub s "/2025"

/-- The crossdock-xor condition of the `WHERE` clause: exactly one side
recognized as crossdock (a NULL side counts as not-crossdock and
satisfies the `IS NULL` escape of the other side's disjunct). -/
def crossdockXor (r : FinRow) : Bool :=
  (isCrossdock r.pickLocationName
    && (!isCrossdock r.dropLocationName || r.dropLocationName = none))
  || (isCrossdock r.dropLocationName
    && (!isCrossdock r.pickLocationName || r.pickLocationName = none))

/-- The full `WHERE` of `ltl_query`. -/
def ltlWhere (r : FinRow) : Bool :=
  r.shipmentType = some "Less Than Truckload"
  && r.mainShipment = some "YES"
  && r.shipmentStatus = some "Complete"
  && pickWindowIn2025 r
  && crossdockXor r

/-- The rows contributing to the market-keyed group `k`
(`GROUP BY market ... HAVING market IS NOT NULL`: the NULL-market group
is discarded, so a row with no market code reaches no group). -/
def marketGroupRows (rows : List FinRow) (k : String) : List FinRow :=
  rows.filter (fun r => ltlWhere r && rowMarket r = some k)

/-- `market_summary` profit: revenue minus cost. -/
def marketSummaryProfit (revenue cost : ℚ) : ℚ :=
  revenue - cost

/-- `market_summary` margin percent:
`profit / revenue * 100 if revenue > 0 else 0`. -/
def marketSummaryMarginPct (revenue cost : ℚ) : ℚ :=
  if 0 < revenue then (revenue - cost) / revenue * 100 else 0

/-- `market_summary` cost per piece: `cost / pieces if pieces > 0 else 0`. -/
def marketSummaryCostPerPiece (cost pieces : ℚ) : ℚ :=
  if 0 < pieces then cost / pieces else 0

/-! ### Trend Analyzer (`calculate_market_trends`, `profit_growers`). -/

/-- One quarterly row of the frame `get_market_summary` returns. -/
structure QuarterRow where
  market : String
  quarter : String
  revenue : ℚ
  cost : ℚ
  pieces : ℚ
deriving DecidableEq

/-- Sum of a per-quarter column over one market's rows. -/
def quarterSum (rows : List QuarterRow) (q : String) (f : QuarterRow → ℚ) : ℚ :=
  ((rows.filter (fun r => r.quarter = q)).map f).sum

/-- `quarter_map`: the numeric index of a quarter label. -/
def quarterNum (q : String) : ℚ :=
  if q = "Q1" then 1 else if q = "Q2" then 2 else if q = "Q3" then 3
  else if q = "Q4" then 4 else 0

/-- The labels `quarter_map` knows (everything else maps to `NaN` and is
dropped by `dropna`). -/
def knownQuarter (q : String) : Bool :=
  q = "Q1" || q = "Q2" || q = "Q3" || q = "Q4"

/-- Mean of a list of rationals (`0` on the empty list, whose sum is 0
and which never occurs here). -/
def listMean (l : List ℚ) : ℚ :=
  l.sum / l.length

/-- Centered cross products `Σ (xᵢ - x̄)(yᵢ - ȳ)`, the building block of
`scipy.stats.linregress`. -/
def centeredDot (xs ys : List ℚ) : ℚ :=
  ((xs.zip ys).map (fun p => (p.1 - listMean xs) * (p.2 - listMean ys))).sum

/-- Ordinary-least-squares slope of `ys` against `xs`. -/
def olsSlope (xs ys : List ℚ) : ℚ :=
  centeredDot xs ys / centeredDot xs xs

/-- The square of the correlation coefficient, `r_value ** 2`.  Rational
division by zero is 0, matching the `linregress` guard that returns
`r = 0` when either centered sum of squares vanishes. -/
def olsRSquared (xs ys : List ℚ) : ℚ :=
  centeredDot xs ys ^ 2 / (centeredDot xs xs * centeredDot ys ys)

/-- One output record of `calculate_market_trends`. -/
structure TrendRow where
  market : String
  quarters : Nat
  profit_slope : ℚ
  profit_r2 : ℚ
  cpp_slope : ℚ
  cpp_r2 : ℚ
deriving DecidableEq

/-- The per-market body of the `calculate_market_trends` loop: group the
market's rows by quarter (pandas sorts the keys), require at least 3
quarterly groups, drop quarters outside `Q1..Q4` (`dropna` after
`quarter_map`), require at least 3 again, then regress profit and
cost-per-piece against the quarter index. -/
def trendForMarket (data : List QuarterRow) (m : String) : Option TrendRow :=
  let rows := data.filter (fun r => r.market = m)
  let quarters := sortStrings ((rows.map (·.quarter)).dedup)
  if quarters.length < 3 then none
  else
    let valid := quarters.filter knownQuarter
    if valid.length < 3 then none
    else
      let xs := valid.map quarterNum
      let profits := valid.map (fun q =>
        quarterSum rows q (·.revenue) - quarterSum rows q (·.cost))
      let cpps := valid.map (fun q =>
        if 0 < quarterSum rows q (·.pieces) then
          quarterSum rows q (·.cost) / quarterSum rows q (·.pieces)
        else 0)
      some ⟨m, valid.length, olsSlope xs profits, olsRSquared xs profits,
            olsSlope xs cpps, olsRSquared xs cpps⟩

/-- `calculate_market_trends`: one record per market with enough data,
markets enumerated in first-appearance order. -/
def calculateMarketTrends (data : List QuarterRow) : List TrendRow :=
  ((data.map (·.market)).dedup).filterMap (trendForMarket data)

/-- The `profit_growers` filter: positive profit slope with R² at least
the `min_r2 = 0.5` consistency floor ("growing & consistent"). -/
def profitGrowers (trends : List TrendRow) : List TrendRow :=
  trends.filter (fun t => 0 < t.profit_slope ∧ 1 / 2 ≤ t.profit_r2)

/-! ## Concrete inputs used by counterexamples and witnesses -/

/-- A mixed-type order: two LTL legs (main and auxiliary) plus one FTL
leg, all base-selected. -/
def c1Rows : List LaneRow :=
  [⟨"ORD-1", some "Less Than Truckload", some "YES"⟩,
   ⟨"ORD-1", some "Less Than Truckload", some "NO"⟩,
   ⟨"ORD-1", some "Full Truckload", some "YES"⟩]

/-- The main-shipment LTL leg of the mixed-type order. -/
def c1MainLeg : LaneRow :=
  ⟨"ORD-1", some "Less Than Truckload", some "YES"⟩

/-- One load with two legs: the multi-leg LTL main row carries all the
revenue, the auxiliary row carries the cost. -/
def c2GroupA : List LocRow :=
  [{ pickZipcode := some "07001", dropZipcode := some "90210",
     customerRoute := some "NJ>LA", loadId := some "L1", warpId := "W1",
     revenueAllocationNumber := 500, costAllocationNumber := 0,
     shipmentType := some "Less Than Truckload", mainShipment := some "YES" },
   { pickZipcode := some "07001", dropZipcode := some "90210",
     customerRoute := some "NJ>LA", loadId := some "L1", warpId := "W2",
     revenueAllocationNumber := 0, costAllocationNumber := 100,
     shipmentType := some "Less Than Truckload", mainShipment := some "NO" }]

/-- One FTL load with two legs: both count, so two distinct leg
identifiers share one order identifier. -/
def c2GroupB : List LocRow :=
  [{ pickZipcode := some "07001", dropZipcode := some "90210",
     customerRoute := some "NJ>LA", loadId := some "L1", warpId := "W1",
     revenueAllocationNumber := 10, costAllocationNumber := 5,
     shipmentType := some "Full Truckload", mainShipment := some "YES" },
   { pickZipcode := some "07001", dropZipcode := some "90210",
     customerRoute := some "NJ>LA", loadId := some "L1", warpId := "W2",
     revenueAllocationNumber := 10, costAllocationNumber := 5,
     shipmentType := some "Full Truckload", mainShipment := some "NO" }]

/-- The Aggregator behaviour the amended claim C2 describes: revenue and
cost are summed over EVERY row of the group regardless of the counts
flag, margin is their difference (each rounded to cents), and the
shipment count is the number of DISTINCT LEG identifiers (`warpId`)
among the group's rows whose counts flag is true. -/
def aggregateAmendedSpec (df : List LocRow) (key : LocRow → Option String)
    (k : String) : AggRow :=
  let g := df.filter (fun r => key r = some k)
  { Total_Revenue := roundTo 2 ((g.map (·.revenueAllocationNumber)).sum)
    Total_Cost := roundTo 2 ((g.map (·.costAllocationNumber)).sum)
    Margin := roundTo 2 ((g.map (·.revenueAllocationNumber)).sum
                - (g.map (·.costAllocationNumber)).sum)
    Shipment_Count :=
      ((g.filter (fun r => countForShipment df r)).map (·.warpId)).toFinset.card }

/-- A row set whose only anomalies are one duplicated leg identifier
(`W1` twice) and one row with a missing customer route. -/
def c8Rows : List LocRow :=
  [{ pickZipcode := some "07001", dropZipcode := some "90210",
     customerRoute := some "NJ>LA", loadId := some "L1", warpId := "W1",
     revenueAllocationNumber := 10, costAllocationNumber := 5,
     shipmentType := some "Full Truckload", mainShipment := some "YES" },
   { pickZipcode := some "07001", dropZipcode := some "90210",
     customerRoute := some "NJ>LA", loadId := some "L1", warpId := "W1",
     revenueAllocationNumber := 10, costAllocationNumber := 5,
     shipmentType := some "Full Truckload", mainShipment := some "NO" },
   { pickZipcode := some "07001", dropZipcode := some "90210",
     customerRoute := none, loadId := some "L3", warpId := "W3",
     revenueAllocationNumber := 10, costAllocationNumber := 5,
     shipmentType := some "Full Truckload", mainShipment := some "YES" }]

/-- A market with an exactly linear 4-quarter profit series
100, 200, 300, 400 (cost 0, one piece per quarter). -/
def c9Series : List QuarterRow :=
  [⟨"LAX", "Q1", 100, 0, 1⟩, ⟨"LAX", "Q2", 200, 0, 1⟩,
   ⟨"LAX", "Q3", 300, 0, 1⟩, ⟨"LAX", "Q4", 400, 0, 1⟩]

/-! ## Helper lemmas -/

/-- `foldl max` dominates its seed and every list element. -/
theorem foldl_max_ge (l : List Nat) (a : Nat) :
    a ≤ l.foldl max a ∧ ∀ d ∈ l, d ≤ l.foldl max a := by
  induction l generalizing a with
  | nil => exact ⟨le_refl a, by simp⟩
  | cons c t ih =>
      rcases ih (max a c) with ⟨h1, h2⟩
      refine ⟨le_trans (le_max_left a c) h1, ?_⟩
      intro d hd
      rcases List.mem_cons.mp hd with rfl | hd
      · exact le_trans (le_max_right a d) h1
      · exact h2 d hd

/-- `foldl max` returns the seed or a list element. -/
theorem foldl_max_mem (l : List Nat) (a : Nat) :
    l.foldl max a ∈ l ∨ l.foldl max a = a := by
  induction l generalizing a with
  | nil => exact Or.inr rfl
  | cons c t ih =>
      rcases ih (max a c) with h | h
      · exact Or.inl (List.mem_cons_of_mem _ h)
      · rcases max_choice a c with hc | hc
        · exact Or.inr (by rw [List.foldl_cons, h, hc])
        · exact Or.inl (by rw [List.foldl_cons, h, hc]; exact List.mem_cons_self _ _)

/-- The maximum arrival date of a non-empty group is attained. -/
theorem maxArrived_attained (g : List KithRow) (hg : g ≠ []) :
    ∃ r ∈ g, r.pickDateArrived = maxArrived g := by
  rcases foldl_max_mem (g.map (·.pickDateArrived)) 0 with h | h
  · rcases List.mem_map.mp h with ⟨r, hr, hd⟩
    exact ⟨r, hr, hd⟩
  · rcases List.exists_mem_of_ne_nil g hg with ⟨r, hr⟩
    have hle : r.pickDateArrived ≤ maxArrived g :=
      (foldl_max_ge (g.map (·.pickDateArrived)) 0).2 _ (List.mem_map_of_mem _ hr)
    have : maxArrived g = 0 := h
    exact ⟨r, hr, le_antisymm hle (by omega)⟩

/-- Membership in `latestRows` unpacked. -/
theorem mem_latestRows {g : List KithRow} {r : KithRow} :
    r ∈ latestRows g ↔ r ∈ g ∧ r.pickDateArrived = maxArrived g := by
  simp [latestRows, List.mem_filter]

/-- A non-empty group has a non-empty set of max-tied rows. -/
theorem latestRows_ne_nil (g : List KithRow) (hg : g ≠ []) :
    latestRows g ≠ [] := by
  rcases maxArrived_attained g hg with ⟨r, hr, hd⟩
  intro hnil
  have : r ∈ latestRows g := mem_latestRows.mpr ⟨hr, hd⟩
  rw [hnil] at this
  exact List.not_mem_nil r this

/-- The behaviour of `deduplicateOrder` on a non-empty group: it returns
one tied-at-max row; the first non-warehouse tied row when one exists,
the first tied row otherwise. -/
theorem deduplicateOrder_spec (g : List KithRow) (hg : g ≠ []) :
    ∃ r, deduplicateOrder g = some r ∧ r ∈ latestRows g ∧
      (nonWarehouseLatest g ≠ [] → some r = (nonWarehouseLatest g).head?) ∧
      (nonWarehouseLatest g = [] → some r = (latestRows g).head?) := by
  have hne := latestRows_ne_nil g hg
  rcases hl : latestRows g with _ | ⟨a, tail⟩
  · exact absurd hl hne
  rcases tail with _ | ⟨b, t⟩
  · -- exactly one tied row
    have hnw : nonWarehouseLatest g
        = if !isWarehouseLoc a.dropLocationName then [a] else [] := by
      rw [nonWarehouseLatest, hl]
      by_cases hp : (!isWarehouseLoc a.dropLocationName) = true
      · simp [hp]
      · simp [List.filter_cons, hp]
    refine ⟨a, ?_, ?_, ?_, ?_⟩
    · rw [deduplicateOrder, hl]
    · exact List.mem_cons_self _ _
    · intro hnn
      rw [hnw] at hnn ⊢
      by_cases hp : (!isWarehouseLoc a.dropLocationName) = true
      · simp [hp]
      · simp [hp] at hnn
    · intro _
      rfl
  · -- at least two tied rows
    rcases hnw : nonWarehouseLatest g with _ | ⟨x, xs⟩
    · refine ⟨a, ?_, ?_, ?_, ?_⟩
      · rw [deduplicateOrder, hl, hnw]
        rfl
      · exact List.mem_cons_self _ _
      · intro hnn; exact absurd rfl hnn
      · intro _; rfl
    · refine ⟨x, ?_, ?_, ?_, ?_⟩
      · rw [deduplicateOrder, hl, hnw]
      · have hx : x ∈ nonWarehouseLatest g := by
          rw [hnw]; exact List.mem_cons_self _ _
        exact hl ▸ (List.mem_filter.mp hx).1
      · intro _; rfl
      · intro hnn; exact absurd hnn (by simp)

/-- Every row of `nonWarehouseLatest` passes the warehouse test. -/
theorem mem_nonWarehouseLatest {g : List KithRow} {r : KithRow} :
    r ∈ nonWarehouseLatest g →
      r ∈ latestRows g ∧ isWarehouseLoc r.dropLocationName = false := by
  intro h
  have := List.mem_filter.mp h
  exact ⟨this.1, by simpa using this.2⟩

/-- C5: on every non-empty group of leg rows for one order code, the
Deduplicator returns exactly one row of the group, that row carries the
group's maximum actual-arrival date, and the tie is broken in favour of
the first non-warehouse tied row in input order (the first tied row when
all tied rows are warehouses), so the output is deterministic given
identical input ordering. -/
theorem claim5_deduplicator_canonical_row (g : List KithRow) (hg : g ≠ []) :
    ∃ r, deduplicateOrder g = some r ∧ r ∈ g ∧
      r.pickDateArrived = maxArrived g ∧
      (nonWarehouseLatest g ≠ [] → some r = (nonWarehouseLatest g).head?) ∧
      (nonWarehouseLatest g = [] → some r = (latestRows g).head?) := by
  rcases deduplicateOrder_spec g hg with ⟨r, hdr, hmem, h1, h2⟩
  rcases mem_latestRows.mp hmem with ⟨hg2, hd⟩
  exact ⟨r, hdr, hg2, hd, h1, h2⟩

/-- C5 witness: a two-row group tied at the max date, warehouse row
first; the non-warehouse row is returned. -/
theorem claim5_witness :
    ∃ r, deduplicateOrder
        [⟨"A", some "WTCH-LAX-9", 5⟩, ⟨"A", some "Main Street 1", 5⟩] = some r ∧
      r ∈ [⟨"A", some "WTCH-LAX-9", 5⟩, ⟨"A", some "Main Street 1", 5⟩] ∧
      r.pickDateArrived
        = maxArrived [⟨"A", some "WTCH-LAX-9", 5⟩, ⟨"A", some "Main Street 1", 5⟩] ∧
      (nonWarehouseLatest [⟨"A", some "WTCH-LAX-9", 5⟩, ⟨"A", some "Main Street 1", 5⟩] ≠ [] →
        some r = (nonWarehouseLatest
          [⟨"A", some "WTCH-LAX-9", 5⟩, ⟨"A", some "Main Street 1", 5⟩]).head?) ∧
      (nonWarehouseLatest [⟨"A", some "WTCH-LAX-9", 5⟩, ⟨"A", some "Main Street 1", 5⟩] = [] →
        some r = (latestRows
          [⟨"A", some "WTCH-LAX-9", 5⟩, ⟨"A", some "Main Street 1", 5⟩]).head?) :=
  claim5_deduplicator_canonical_row _ (by decide)

/-- C10: the warehouse test classifies a missing or empty drop location
as non-warehouse, so in any tie at the maximum date a row with a missing
or empty drop location is preferred to `WTCH-`-prefixed rows: the kept
row is never a warehouse row. -/
theorem claim10_null_drop_non_warehouse (g : List KithRow) (hg : g ≠ [])
    (hs : ∃ s ∈ latestRows g,
      s.dropLocationName = none ∨ s.dropLocationName = some "") :
    isWarehouseLoc none = false ∧ isWarehouseLoc (some "") = false ∧
    ∃ r, deduplicateOrder g = some r ∧
      isWarehouseLoc r.dropLocationName = false := by
  refine ⟨rfl, by decide, ?_⟩
  rcases deduplicateOrder_spec g hg with ⟨r, hdr, _, h1, _⟩
  rcases hs with ⟨s, hsl, hdrop⟩
  have hsw : isWarehouseLoc s.dropLocationName = false := by
    rcases hdrop with h | h <;> rw [h] <;> decide
  have hsnw : s ∈ nonWarehouseLatest g :=
    List.mem_filter.mpr ⟨hsl, by simp [hsw]⟩
  have hnn : nonWarehouseLatest g ≠ [] := by
    intro hnil; rw [hnil] at hsnw; exact List.not_mem_nil s hsnw
  have hrmem : r ∈ nonWarehouseLatest g := by
    have hhead := h1 hnn
    rcases hx : nonWarehouseLatest g with _ | ⟨x, xs⟩
    · exact absurd hx hnn
    · rw [hx] at hhead
      simp only [List.head?] at hhead
      rcases Option.some.inj hhead with rfl
      exact List.mem_cons_self _ _
  exact ⟨r, hdr, (mem_nonWarehouseLatest hrmem).2⟩

/-- C10 witness: tie between a warehouse row and a row with an empty
drop location; the kept row is not a warehouse. -/
theorem claim10_witness :
    isWarehouseLoc none = false ∧ isWarehouseLoc (some "") = false ∧
    ∃ r, deduplicateOrder
        [⟨"B", some "WTCH-EWR-2", 7⟩, ⟨"B", some "", 7⟩] = some r ∧
      isWarehouseLoc r.dropLocationName = false :=
  claim10_null_drop_non_warehouse _ (by decide)
    ⟨⟨"B", some "", 7⟩, by decide, Or.inr rfl⟩

/-- Midnight truncation is monotone. -/
theorem normalizeDate_mono {a b : Nat} (h : a ≤ b) :
    normalizeDate a ≤ normalizeDate b :=
  Nat.mul_le_mul_right _ (Nat.div_le_div_right h)

/-- The empty string has no parse. -/
theorem parseTimestamp_empty : parseTimestamp "" = none := by decide

/-- The Customer status `CASE`, on parseable inputs, reduces to the
boundary-inclusive comparison. -/
theorem customerOnTimeCase_parsed (lbl : String) {sArr sWin : String} {a b : Nat}
    (hr : parseTimestamp sArr = some a) (hw : parseTimestamp sWin = some b) :
    customerOnTimeCase lbl (some sArr) (some sWin)
      = if a ≤ b then "On Time" else "Late" := by
  have hne : sArr ≠ "" := by
    intro h
    rw [h, parseTimestamp_empty] at hr
    exact Option.noConfusion hr
  simp only [customerOnTimeCase, sqlStrToDate, Option.some_bind]
  rw [if_neg hne]
  simp only [hr, hw]
  unfold sqlTimestampLe
  by_cases h : a ≤ b
  · rw [if_pos h, if_pos (by simpa using h)]
  · rw [if_neg h, if_neg (by simpa using h)]

/-- C3: for a leg with a recorded, parseable actual arrival and a
parseable scheduled window, both On-Time Evaluator variants are boundary
inclusive: arrival at or before the relevant bound (the window end for
the Customer OTP/OTD statuses; the date-normalized window start for the
ACCL statuses) yields "On Time", an arrival exactly equal to the bound
included, and "Late" arises only from a strictly later arrival. -/
theorem claim3_on_time_boundary_inclusive (sArr sWin : String) (a b : Nat)
    (hr : parseTimestamp sArr = some a) (hw : parseTimestamp sWin = some b) :
    (a ≤ b → otpStatusCustomer (some sArr) (some sWin) = "On Time") ∧
    (otpStatusCustomer (some sArr) (some sWin) = "Late" → b < a) ∧
    (a ≤ b → otdStatusCustomer (some sArr) (some sWin) = "On Time") ∧
    (otdStatusCustomer (some sArr) (some sWin) = "Late" → b < a) ∧
    (a ≤ b → acclStatus (some a) (some b) = "On Time") ∧
    (acclStatus (some a) (some b) = "Late" → b < a) := by
  have hcp := customerOnTimeCase_parsed "No Pickup Data" hr hw
  have hcd := customerOnTimeCase_parsed "No Delivery Data" hr hw
  have haccl : a ≤ b → acclStatus (some a) (some b) = "On Time" := by
    intro h
    have hn := normalizeDate_mono h
    unfold acclStatus pandasGtNormalized
    rw [if_neg (by simpa using Nat.not_lt.mpr hn)]
  refine ⟨?_, ?_, ?_, ?_, haccl, ?_⟩
  · intro h
    rw [otpStatusCustomer, hcp, if_pos h]
  · intro h
    by_contra hb
    rw [otpStatusCustomer, hcp, if_pos (Nat.le_of_not_lt hb)] at h
    exact absurd h (by decide)
  · intro h
    rw [otdStatusCustomer, hcd, if_pos h]
  · intro h
    by_contra hb
    rw [otdStatusCustomer, hcd, if_pos (Nat.le_of_not_lt hb)] at h
    exact absurd h (by decide)
  · intro h
    by_contra hb
    rw [haccl (Nat.le_of_not_lt hb)] at h
    exact absurd h (by decide)

/-- C3 witness: an arrival exactly at the window bound is On Time in
both variants. -/
theorem claim3_witness :
    otpStatusCustomer (some "03/04/2025 10:00:00") (some "03/04/2025 10:00:00")
        = "On Time" ∧
    acclStatus (some ((2025 * 372 + 2 * 31 + 3) * 86400 + 36000))
        (some ((2025 * 372 + 2 * 31 + 3) * 86400 + 36000)) = "On Time" := by
  have h := claim3_on_time_boundary_inclusive "03/04/2025 10:00:00" "03/04/2025 10:00:00"
    ((2025 * 372 + 2 * 31 + 3) * 86400 + 36000) ((2025 * 372 + 2 * 31 + 3) * 86400 + 36000)
    (by decide) (by decide)
  exact ⟨h.1 (le_refl _), h.2.2.2.2.1 (le_refl _)⟩

/-- C4 counterexample: the claim says a leg with an absent or
unparseable actual arrival always gets the no-data status and never
"On Time" or "Late".  In the ACCL evaluator a missing (or unparseable)
arrival compares `False` against the schedule and is mapped to
"On Time"; in the Customer evaluator a non-empty unparseable arrival
falls through the `STR_TO_DATE` comparison to "Late". -/
theorem claim4_counterexample :
    acclStatusRaw none (some "01/15/2025 08:00:00") = "On Time" ∧
    acclStatusRaw (some "Invalid date") (some "01/15/2025 08:00:00") = "On Time" ∧
    otpStatusCustomer (some "Invalid date") (some "01/15/2025 08:00:00") = "Late" := by
  decide

/-- C4 (amended): in the Customer variant a leg with an absent or empty
actual arrival yields the no-data status ("No Pickup Data" /
"No Delivery Data") and never "On Time" or "Late", and every leg gets
exactly one of the three statuses (evaluation is total, nothing raises
or aborts); but a non-empty unparseable arrival yields "Late" there, and
the ACCL variant yields "On Time" - not a no-data status - whenever the
actual arrival is missing or unparseable. -/
theorem claim4_no_data_amended :
    (∀ win, otpStatusCustomer none win = "No Pickup Data") ∧
    (∀ win, otpStatusCustomer (some "") win = "No Pickup Data") ∧
    (∀ win, otdStatusCustomer none win = "No Delivery Data") ∧
    (∀ win, otdStatusCustomer (some "") win = "No Delivery Data") ∧
    (∀ arr win, otpStatusCustomer arr win = "No Pickup Data"
      ∨ otpStatusCustomer arr win = "On Time"
      ∨ otpStatusCustomer arr win = "Late") ∧
    (∀ s win, s ≠ "" → parseTimestamp s = none →
      otpStatusCustomer (some s) win = "Late") ∧
    (∀ sched, acclStatus none sched = "On Time") ∧
    (∀ s sched, parseTimestamp s = none →
      acclStatusRaw (some s) sched = "On Time") := by
  refine ⟨fun _ => rfl, fun _ => rfl, fun _ => rfl, fun _ => rfl, ?_, ?_, ?_, ?_⟩
  · intro arr win
    rcases arr with _ | s
    · exact Or.inl rfl
    · simp only [otpStatusCustomer, customerOnTimeCase]
      by_cases hs : s = ""
      · rw [if_pos hs]; exact Or.inl rfl
      · rw [if_neg hs]
        by_cases hc : sqlTimestampLe (parseTimestamp s) (sqlStrToDate win) = true
        · rw [if_pos hc]; exact Or.inr (Or.inl rfl)
        · rw [if_neg hc]; exact Or.inr (Or.inr rfl)
  · intro s win hs hp
    simp only [otpStatusCustomer, customerOnTimeCase]
    rw [if_neg hs, hp]
    have : sqlTimestampLe none (sqlStrToDate win) = false := by
      unfold sqlTimestampLe; rfl
    rw [if_neg (by simp [this])]
  · intro sched
    rcases sched with _ | t <;> rfl
  · intro s sched hp
    unfold acclStatusRaw pandasToDatetime
    rw [Option.some_bind, hp]
    rcases pandasToDatetime sched with _ | t <;> rfl

/-- C4 witness: instances of the amended statement at concrete inputs. -/
theorem claim4_witness :
    otpStatusCustomer none (some "01/15/2025 08:00:00") = "No Pickup Data" ∧
    otpStatusCustomer (some "nonsense") (some "01/15/2025 08:00:00") = "Late" ∧
    acclStatus none (some 86400) = "On Time" :=
  ⟨claim4_no_data_amended.1 _,
   claim4_no_data_amended.2.2.2.2.2.1 "nonsense" _ (by decide) (by decide),
   claim4_no_data_amended.2.2.2.2.2.2.1 _⟩

/-- C6: market extraction maps `WTCH-LAX-9` to `LAX` (fixed prefix plus
3-letter substring), `SB-NYC-UG` to `EWR` (prefix lookup), any string
matching no rule to null, and a row whose market resolves to null
belongs to no market-keyed group. -/
theorem claim6_market_extraction (l : String) (hl : matchesMarketRule l = false)
    (rows : List FinRow) (r : FinRow) (hr : rowMarket r = none) (k : String) :
    getMarketCase (some "WTCH-LAX-9") = some "LAX" ∧
    getMarketCase (some "SB-NYC-UG") = some "EWR" ∧
    getMarketCase (some l) = none ∧
    r ∉ marketGroupRows rows k := by
  refine ⟨by decide, by decide, ?_, ?_⟩
  · unfold matchesMarketRule at hl
    rcases Bool.or_eq_false_iff.mp hl with ⟨hl, h13⟩
    rcases Bool.or_eq_false_iff.mp hl with ⟨hl, h12⟩
    rcases Bool.or_eq_false_iff.mp hl with ⟨hl, h11⟩
    rcases Bool.or_eq_false_iff.mp hl with ⟨hl, h10⟩
    rcases Bool.or_eq_false_iff.mp hl with ⟨hl, h9⟩
    rcases Bool.or_eq_false_iff.mp hl with ⟨hl, h8⟩
    rcases Bool.or_eq_false_iff.mp hl with ⟨hl, h7⟩
    rcases Bool.or_eq_false_iff.mp hl with ⟨hl, h6⟩
    rcases Bool.or_eq_false_iff.mp hl with ⟨hl, h5⟩
    rcases Bool.or_eq_false_iff.mp hl with ⟨hl, h4⟩
    rcases Bool.or_eq_false_iff.mp hl with ⟨hl, h3⟩
    rcases Bool.or_eq_false_iff.mp hl with ⟨h1, h2⟩
    unfold getMarketCase
    simp [h1, h2, h3, h4, h5, h6, h7, h8, h9, h10, h11, h12, h13]
  · intro hm
    have := List.mem_filter.mp hm
    rw [hr] at this
    simp at this

/-- C6 witness: the extraction examples plus exclusion of a
null-market row. -/
theorem claim6_witness :
    getMarketCase (some "WTCH-LAX-9") = some "LAX" ∧
    getMarketCase (some "SB-NYC-UG") = some "EWR" ∧
    getMarketCase (some "Random Street 5") = none ∧
    ({ pickLocationName := none, dropLocationName := none,
       shipmentType := some "Less Than Truckload",
       mainShipment := some "YES", shipmentStatus := some "Complete",
       pickWindowFrom := some "01/05/2025 08:00:00", warpId := "W1",
       revenueAllocationNumber := 10, pieces := 1 } : FinRow)
      ∉ marketGroupRows [] "LAX" :=
  claim6_market_extraction "Random Street 5" (by decide) [] _ (by decide) "LAX"

/-- C1 (code evaluated at the failing input): in the "All" branch of
`get_profit_by_lane_data`, a mixed-type order with two LTL legs (main
and auxiliary) and one FTL leg has its LTL main-shipment row counted as
billable: the per-(order, shipment-type) counts CTE is joined back on
the order code alone, so the LTL `YES` row is matched against the FTL
group's count of 1 and passes the single-row test, although the order
has three leg rows (two of them LTL) and the claim - and the source's
own docstring - say the main-shipment row of a multi-leg LTL order is
never billable. -/
theorem claim1_classifier_failing_input :
    c1MainLeg ∈ c1Rows ∧
    c1MainLeg.shipmentType = some "Less Than Truckload" ∧
    c1MainLeg.mainShipment = some "YES" ∧
    (c1Rows.filter (fun r => r.orderCode = c1MainLeg.orderCode)).length = 3 ∧
    groupTotalRows c1Rows c1MainLeg.orderCode (some "Less Than Truckload") = 2 ∧
    laneBillable c1Rows c1MainLeg = true := by
  decide

/-- IEEE division of two finite values, unfolded. -/
theorem pfloat_div_val (a b : ℚ) :
    PFloat.div (PFloat.val a) (PFloat.val b)
      = if b = 0 then
          (if a = 0 then PFloat.nan else if 0 < a then PFloat.inf else PFloat.ninf)
        else PFloat.val (a / b) := rfl

/-- C7 counterexample: an aggregate row with total revenue 0 and total
cost 50 has margin −50 as the claim says, but the Profit-by-Lane
`margin_pct` column evaluates to −infinity, not 0: pandas float division
of a nonzero numerator by zero yields an infinity, which `.fillna(0)`
(which replaces only `NaN`) does not touch. -/
theorem claim7_counterexample :
    laneTotalProfit 0 50 = -50 ∧
    laneMarginPct (laneTotalProfit 0 50) 0 = PFloat.ninf ∧
    PFloat.ninf ≠ PFloat.val 0 := by
  have hp : laneTotalProfit 0 50 = -50 := by norm_num [laneTotalProfit]
  refine ⟨hp, ?_, by decide⟩
  rw [hp, laneMarginPct, pfloat_div_val]
  norm_num
  rfl

/-- C7 (amended): margin equals revenue minus cost in both aggregate
variants; the financials market-summary margin percent is 0 whenever
revenue is 0 (its guard is `revenue > 0`) and margin/revenue×100
otherwise; but in the Profit-by-Lane report the margin-percent column is
margin/revenue×100 with only the NaN of 0/0 replaced by 0: a nonzero
margin over zero revenue gives ±infinity rather than 0. -/
theorem claim7_margin_amended :
    (∀ revenue cost : ℚ, laneTotalProfit revenue cost = revenue - cost) ∧
    (∀ revenue cost : ℚ, marketSummaryProfit revenue cost = revenue - cost) ∧
    (∀ cost : ℚ, marketSummaryMarginPct 0 cost = 0) ∧
    (∀ revenue cost : ℚ, 0 < revenue →
      marketSummaryMarginPct revenue cost = (revenue - cost) / revenue * 100) ∧
    (∀ profit revenue : ℚ, revenue ≠ 0 →
      laneMarginPct profit revenue = PFloat.val (roundTo 1 (profit / revenue * 100))) ∧
    (∀ profit : ℚ, 0 < profit → laneMarginPct profit 0 = PFloat.inf) ∧
    (∀ profit : ℚ, profit < 0 → laneMarginPct profit 0 = PFloat.ninf) ∧
    laneMarginPct 0 0 = PFloat.val 0 := by
  refine ⟨fun _ _ => rfl, fun _ _ => rfl, ?_, ?_, ?_, ?_, ?_, ?_⟩
  · intro cost
    rw [marketSummaryMarginPct, if_neg (lt_irrefl 0)]
  · intro revenue cost h
    rw [marketSummaryMarginPct, if_pos h]
  · intro profit revenue h
    rw [laneMarginPct, pfloat_div_val, if_neg h]
    rfl
  · intro profit h
    rw [laneMarginPct, pfloat_div_val, if_pos rfl, if_neg (ne_of_gt h), if_pos h]
    rfl
  · intro profit h
    rw [laneMarginPct, pfloat_div_val, if_pos rfl, if_neg (ne_of_lt h),
      if_neg (not_lt_of_lt h)]
    rfl
  · rw [laneMarginPct, pfloat_div_val, if_pos rfl, if_pos rfl]
    show PFloat.val (roundTo 1 0) = PFloat.val 0
    norm_num [roundTo, roundHalfEven]

/-- C7 witness: the amended statement at revenue 0, cost 50. -/
theorem claim7_witness :
    marketSummaryProfit 0 50 = 0 - 50 ∧
    marketSummaryMarginPct 0 50 = 0 ∧
    laneMarginPct (-50) 0 = PFloat.ninf :=
  ⟨claim7_margin_amended.2.1 0 50,
   claim7_margin_amended.2.2.1 50,
   claim7_margin_amended.2.2.2.2.2.2.1 (-50) (by norm_num)⟩

/-- C2 (amended): for every grouping key, the aggregate's revenue and
cost are the sums over ALL rows of the group - the counts flag does not
restrict them - margin is their difference (the money columns rounded to
cents), and the shipment count is the number of distinct LEG identifiers
(`warpId`), not order identifiers, among the group's rows whose counts
flag is true. -/
theorem claim2_aggregator_amended :
    ∀ (df : List LocRow) (key : LocRow → Option String) (k : String),
      aggregateByColumn df key k = aggregateAmendedSpec df key k := by
  intro df key k
  simp [aggregateByColumn, aggregateAmendedSpec, List.card_toFinset]

/-- C2 counterexample: in a group made of one multi-leg LTL load - the
main row carrying revenue 500 with counts flag false, the auxiliary row
carrying cost 100 - the reported total revenue is 500, while the sum of
revenue over the counts-true rows alone is 0; and in a group made of one
two-leg FTL load (both rows counts-true) the reported shipment count is
2, the number of leg identifiers, while the number of distinct order
identifiers among counts-true rows is 1. -/
theorem claim2_counterexample :
    (aggregateByColumn c2GroupA (fun r => r.customerRoute) "NJ>LA").Total_Revenue = 500 ∧
    ((c2GroupA.filter (fun r => countForShipment c2GroupA r)).map
        (·.revenueAllocationNumber)).sum = 0 ∧
    (aggregateByColumn c2GroupB (fun r => r.customerRoute) "NJ>LA").Shipment_Count = 2 ∧
    ((c2GroupB.filter (fun r => countForShipment c2GroupB r)).filterMap
        (·.loadId)).dedup.length = 1 := by
  refine ⟨?_, ?_, by decide, by decide⟩
  · have hflt : c2GroupA.filter
        (fun r => (fun r : LocRow => r.customerRoute) r = some "NJ>LA") = c2GroupA := by
      decide
    rw [aggregateByColumn]
    show roundTo 2 ((List.map _ (c2GroupA.filter _)).sum) = 500
    rw [hflt]
    show roundTo 2 ([(500 : ℚ), 0].sum) = 500
    norm_num [roundTo, roundHalfEven]
  · have hflt : c2GroupA.filter (fun r => countForShipment c2GroupA r)
        = [c2GroupA.get ⟨1, by decide⟩] := by decide
    rw [hflt]
    show ([(0 : ℚ)]).sum = 0
    norm_num

/-- The fallback sample builder never returns more than 5 samples. -/
theorem sampleIdentifiers_le_five (rows : List LocRow) :
    (sampleIdentifiers rows).length ≤ 5 := by
  unfold sampleIdentifiers
  simp only [List.length_append, List.length_map, List.length_take]
  omega

/-- The `Missing Routes` finding, when present, is well-formed. -/
theorem missingRoutes_finding_ok {df : List LocRow} {f : Finding}
    (h : missingRoutesFinding df = some f) :
    f.samples.length ≤ 5 ∧ 0 < f.counts.sum := by
  simp only [missingRoutesFinding] at h
  by_cases hc : (df.filter routeMissing).length = 0
  · rw [if_pos hc] at h
    exact absurd h (by simp)
  · rw [if_neg hc] at h
    rcases Option.some.inj h with rfl
    exact ⟨sampleIdentifiers_le_five _, by simpa using Nat.pos_of_ne_zero hc⟩

/-- The `Missing Zip Codes` finding, when present, is well-formed. -/
theorem missingZips_finding_ok {df : List LocRow} {f : Finding}
    (h : missingZipsFinding df = some f) :
    f.samples.length ≤ 5 ∧ 0 < f.counts.sum := by
  simp only [missingZipsFinding] at h
  by_cases hc : (df.filter (fun r => r.pickZipcode = none)).length = 0
      ∧ (df.filter (fun r => r.dropZipcode = none)).length = 0
  · rw [if_pos hc] at h
    exact absurd h (by simp)
  · rw [if_neg hc] at h
    rcases Option.some.inj h with rfl
    refine ⟨sampleIdentifiers_le_five _, ?_⟩
    simp only [Finding.counts, List.sum_cons, List.sum_nil]
    omega

/-- The `Revenue Issues` finding, when present, is well-formed. -/
theorem revenueIssues_finding_ok {df : List LocRow} {f : Finding}
    (h : revenueIssuesFinding df = some f) :
    f.samples.length ≤ 5 ∧ 0 < f.counts.sum := by
  simp only [revenueIssuesFinding] at h
  by_cases hc : ((sortedLoadIds df).filter (fun k => loadRevenue df k = 0)).length = 0
      ∧ ((sortedLoadIds df).filter (fun k => loadRevenue df k < 0)).length = 0
  · rw [if_pos hc] at h
    exact absurd h (by simp)
  · rw [if_neg hc] at h
    rcases Option.some.inj h with rfl
    refine ⟨?_, ?_⟩
    · simp only [Finding.samples, List.length_map, List.length_take]
      omega
    · simp only [Finding.counts, List.sum_cons, List.sum_nil]
      omega

/-- The `Cost Issues` finding, when present, is well-formed. -/
theorem costIssues_finding_ok {df : List LocRow} {f : Finding}
    (h : costIssuesFinding df = some f) :
    f.samples.length ≤ 5 ∧ 0 < f.counts.sum := by
  simp only [costIssuesFinding] at h
  by_cases hc : ((sortedLoadIds df).filter (fun k => loadCost df k = 0)).length = 0
      ∧ ((sortedLoadIds df).filter (fun k => loadCost df k < 0)).length = 0
  · rw [if_pos hc] at h
    exact absurd h (by simp)
  · rw [if_neg hc] at h
    rcases Option.some.inj h with rfl
    refine ⟨?_, ?_⟩
    · simp only [Finding.samples, List.length_map, List.length_take]
      omega
    · simp only [Finding.counts, List.sum_cons, List.sum_nil]
      omega

/-- The `Duplicate Records` finding, when present, is well-formed. -/
theorem duplicateRecords_finding_ok {df : List LocRow} {f : Finding}
    (h : duplicateRecordsFinding df = some f) :
    f.samples.length ≤ 5 ∧ 0 < f.counts.sum := by
  simp only [duplicateRecordsFinding] at h
  by_cases hc : (dupOccurrences (df.map (·.warpId)) []).length = 0
  · rw [if_pos hc] at h
    exact absurd h (by simp)
  · rw [if_neg hc] at h
    rcases Option.some.inj h with rfl
    refine ⟨?_, by simpa using Nat.pos_of_ne_zero hc⟩
    simp only [Finding.samples, List.length_map, List.length_take]
    omega

/-- The `Route Formatting` finding, when present, is well-formed. -/
theorem routeFormatting_finding_ok {df : List LocRow} {f : Finding}
    (h : routeFormattingFinding df = some f) :
    f.samples.length ≤ 5 ∧ 0 < f.counts.sum := by
  simp only [routeFormattingFinding] at h
  by_cases hc : (df.filter routeHasMultipleSpaces).length = 0
  · rw [if_pos hc] at h
    exact absurd h (by simp)
  · rw [if_neg hc] at h
    rcases Option.some.inj h with rfl
    refine ⟨?_, by simpa using Nat.pos_of_ne_zero hc⟩
    simp only [Finding.samples, List.length_take]
    omega

/-- The `Route Pattern` finding, when present, is well-formed. -/
theorem routePattern_finding_ok {df : List LocRow} {f : Finding}
    (h : routePatternFinding df = some f) :
    f.samples.length ≤ 5 ∧ 0 < f.counts.sum := by
  simp only [routePatternFinding] at h
  by_cases hc : (df.filter routeLacksSeparator).length = 0
  · rw [if_pos hc] at h
    exact absurd h (by simp)
  · rw [if_neg hc] at h
    rcases Option.some.inj h with rfl
    refine ⟨?_, by simpa using Nat.pos_of_ne_zero hc⟩
    simp only [Finding.samples, List.length_take]
    omega

/-- The `Missing Metadata` finding, when present, is well-formed. -/
theorem missingMetadata_finding_ok {df : List LocRow} {f : Finding}
    (h : missingMetadataFinding df = some f) :
    f.samples.length ≤ 5 ∧ 0 < f.counts.sum := by
  simp only [missingMetadataFinding] at h
  by_cases hc : (df.filter (fun r => r.shipmentType = none)).length = 0
      ∧ (df.filter (fun r => r.mainShipment = none)).length = 0
  · rw [if_pos hc] at h
    exact absurd h (by simp)
  · rw [if_neg hc] at h
    rcases Option.some.inj h with rfl
    refine ⟨sampleIdentifiers_le_five _, ?_⟩
    simp only [Finding.counts, List.sum_cons, List.sum_nil]
    omega

/-- Every emitted finding carries at most 5 samples and a positive
total count (a check whose counts are all zero emits nothing). -/
theorem runChecks_findings_wellformed (df : List LocRow) :
    ∀ f ∈ runDataQualityChecks df, f.samples.length ≤ 5 ∧ 0 < f.counts.sum := by
  intro f hf
  rcases List.mem_filterMap.mp hf with ⟨o, ho, hid⟩
  simp only [id_eq] at hid
  subst hid
  simp only [List.mem_cons, List.not_mem_nil, or_false] at ho
  rcases ho with h | h | h | h | h | h | h | h
  · exact missingRoutes_finding_ok h.symm
  · exact missingZips_finding_ok h.symm
  · exact revenueIssues_finding_ok h.symm
  · exact costIssues_finding_ok h.symm
  · exact duplicateRecords_finding_ok h.symm
  · exact routeFormatting_finding_ok h.symm
  · exact routePattern_finding_ok h.symm
  · exact missingMetadata_finding_ok h.symm

/-- Evaluation of the auditor on the two-anomaly row set: the missing
route also fails the separator check, so three findings come out. -/
theorem runChecks_c8Rows_eval :
    runDataQualityChecks c8Rows =
      [⟨"Missing Routes", [1], [some "L3"]⟩,
       ⟨"Duplicate Records", [1], [some "W1"]⟩,
       ⟨"Route Pattern", [1], [none]⟩] := by
  have h1 : missingRoutesFinding c8Rows
      = some ⟨"Missing Routes", [1], [some "L3"]⟩ := by decide
  have h2 : missingZipsFinding c8Rows = none := by decide
  have hkeys : sortedLoadIds c8Rows = ["L1", "L3"] := by decide
  have hrev1 : loadRevenue c8Rows "L1" = 20 := by
    show ([(10 : ℚ), 10]).sum = 20
    norm_num
  have hrev3 : loadRevenue c8Rows "L3" = 10 := by
    show ([(10 : ℚ)]).sum = 10
    norm_num
  have hcost1 : loadCost c8Rows "L1" = 10 := by
    show ([(5 : ℚ), 5]).sum = 10
    norm_num
  have hcost3 : loadCost c8Rows "L3" = 5 := by
    show ([(5 : ℚ)]).sum = 5
    norm_num
  have h3 : revenueIssuesFinding c8Rows = none := by
    simp only [revenueIssuesFinding, hkeys]
    norm_num [List.filter_cons, List.filter_nil, hrev1, hrev3]
  have h4 : costIssuesFinding c8Rows = none := by
    simp only [costIssuesFinding, hkeys]
    norm_num [List.filter_cons, List.filter_nil, hcost1, hcost3]
  have h5 : duplicateRecordsFinding c8Rows
      = some ⟨"Duplicate Records", [1], [some "W1"]⟩ := by decide
  have h6 : routeFormattingFinding c8Rows = none := by decide
  have h7 : routePatternFinding c8Rows
      = some ⟨"Route Pattern", [1], [none]⟩ := by decide
  have h8 : missingMetadataFinding c8Rows = none := by decide
  rw [runDataQualityChecks, h1, h2, h3, h4, h5, h6, h7, h8]
  rfl

/-- C8 counterexample: on the row set whose only anomalies are one
duplicated leg identifier and one missing route, the auditor returns
three findings, not two - the row with the missing route is also counted
by the separator-pattern check (`~str.contains('>', na=False)` is true
on a null route). -/
theorem claim8_counterexample :
    (runDataQualityChecks c8Rows).length = 3 ∧
    (runDataQualityChecks c8Rows).length ≠ 2 := by
  rw [runChecks_c8Rows_eval]
  exact ⟨rfl, by decide⟩

/-- C8 (amended): every finding carries its occurrence counts and at
most 5 example identifiers, checks whose counts are all zero produce no
finding, and the two-anomaly row set produces exactly THREE findings -
Missing Routes, Duplicate Records, and Route Pattern (the missing route
also lacks the `>` separator) - each with the correct count 1 and a
non-empty sample list. -/
theorem claim8_auditor_amended :
    (∀ df : List LocRow, ∀ f ∈ runDataQualityChecks df,
      f.samples.length ≤ 5 ∧ 0 < f.counts.sum) ∧
    runDataQualityChecks c8Rows =
      [⟨"Missing Routes", [1], [some "L3"]⟩,
       ⟨"Duplicate Records", [1], [some "W1"]⟩,
       ⟨"Route Pattern", [1], [none]⟩] ∧
    (∀ f ∈ runDataQualityChecks c8Rows, f.counts = [1] ∧ f.samples ≠ []) :=
  ⟨runChecks_findings_wellformed, runChecks_c8Rows_eval, by
    rw [runChecks_c8Rows_eval]
    intro f hf
    rcases List.mem_cons.mp hf with rfl | hf
    · exact ⟨rfl, by decide⟩
    rcases List.mem_cons.mp hf with rfl | hf
    · exact ⟨rfl, by decide⟩
    rcases List.mem_cons.mp hf with rfl | hf
    · exact ⟨rfl, by decide⟩
    · exact absurd hf (List.not_mem_nil f)⟩

/-- C8 witness: the amended statement instantiated at the concrete row
set and its first finding. -/
theorem claim8_witness :
    (Finding.mk "Missing Routes" [1] [some "L3"]).samples.length ≤ 5 ∧
    0 < (Finding.mk "Missing Routes" [1] [some "L3"]).counts.sum := by
  have h := claim8_auditor_amended
  exact h.1 c8Rows _ (by rw [h.2.1]; exact List.mem_cons_self _ _)

/-- A trend record is only produced for a market with at least 3
quarterly groups surviving the quarter-index mapping. -/
theorem trendForMarket_quarters {data : List QuarterRow} {m : String} {t : TrendRow}
    (h : trendForMarket data m = some t) : 3 ≤ t.quarters := by
  simp only [trendForMarket] at h
  by_cases h1 : (sortStrings ((data.filter (fun r => r.market = m)).map
      (·.quarter)).dedup).length < 3
  · rw [if_pos h1] at h
    exact absurd h (by simp)
  · rw [if_neg h1] at h
    by_cases h2 : ((sortStrings ((data.filter (fun r => r.market = m)).map
        (·.quarter)).dedup).filter knownQuarter).length < 3
    · rw [if_pos h2] at h
      exact absurd h (by simp)
    · rw [if_neg h2] at h
      rcases Option.some.inj h with rfl
      simpa using Nat.le_of_not_lt h2

/-- Evaluation of the per-market regression on the linear series. -/
theorem trendForMarket_c9_eval :
    trendForMarket c9Series "LAX" = some ⟨"LAX", 4, 100, 1, 0, 0⟩ := by
  have hrows : c9Series.filter (fun r => r.market = "LAX") = c9Series := by decide
  have hq : sortStrings ((c9Series.map (·.quarter)).dedup)
      = ["Q1", "Q2", "Q3", "Q4"] := by decide
  have hv : (["Q1", "Q2", "Q3", "Q4"].filter knownQuarter)
      = ["Q1", "Q2", "Q3", "Q4"] := by decide
  have e1 : c9Series.filter (fun r => r.quarter = "Q1")
      = [⟨"LAX", "Q1", 100, 0, 1⟩] := by decide
  have e2 : c9Series.filter (fun r => r.quarter = "Q2")
      = [⟨"LAX", "Q2", 200, 0, 1⟩] := by decide
  have e3 : c9Series.filter (fun r => r.quarter = "Q3")
      = [⟨"LAX", "Q3", 300, 0, 1⟩] := by decide
  have e4 : c9Series.filter (fun r => r.quarter = "Q4")
      = [⟨"LAX", "Q4", 400, 0, 1⟩] := by decide
  have hn1 : quarterNum "Q1" = 1 := rfl
  have hn2 : quarterNum "Q2" = 2 := rfl
  have hn3 : quarterNum "Q3" = 3 := rfl
  have hn4 : quarterNum "Q4" = 4 := rfl
  simp only [trendForMarket, hrows, hq, hv, quarterSum, e1, e2, e3, e4,
    hn1, hn2, hn3, hn4, List.map_cons, List.map_nil, List.sum_cons, List.sum_nil]
  norm_num [olsSlope, olsRSquared, centeredDot, listMean, List.zip, List.zipWith,
    List.sum_cons, List.sum_nil]

/-- Evaluation of the whole Trend Analyzer on the linear series. -/
theorem calculateMarketTrends_c9_eval :
    calculateMarketTrends c9Series = [⟨"LAX", 4, 100, 1, 0, 0⟩] := by
  have hm : (c9Series.map (·.market)).dedup = ["LAX"] := by decide
  rw [calculateMarketTrends, hm]
  simp [List.filterMap_cons, trendForMarket_c9_eval]

/-- C9: the Trend Analyzer only reports markets with at least 3
quarterly periods, and on the exactly linear 4-quarter profit series
100, 200, 300, 400 the OLS fit has slope 100 and R² = 1, so the market
is classified growing-and-consistent (positive profit slope with
R² ≥ 0.5, the `profit_growers` filter). -/
theorem claim9_trend_analyzer :
    (∀ data : List QuarterRow, ∀ t ∈ calculateMarketTrends data, 3 ≤ t.quarters) ∧
    calculateMarketTrends c9Series = [⟨"LAX", 4, 100, 1, 0, 0⟩] ∧
    profitGrowers (calculateMarketTrends c9Series) = calculateMarketTrends c9Series := by
  refine ⟨?_, calculateMarketTrends_c9_eval, ?_⟩
  · intro data t ht
    rcases List.mem_filterMap.mp ht with ⟨m, _, hm⟩
    exact trendForMarket_quarters hm
  · rw [calculateMarketTrends_c9_eval]
    simp only [profitGrowers, List.filter_cons, List.filter_nil]
    norm_num

/-- C9 witness: the eligibility bound instantiated at the linear
series and its trend record. -/
theorem claim9_witness : 3 ≤ (TrendRow.mk "LAX" 4 100 1 0 0).quarters := by
  have h := claim9_trend_analyzer
  exact h.1 c9Series _ (by rw [h.2.1]; exact List.mem_cons_self _ _)

/-- C2 witness: the amended aggregate equality at a concrete group. -/
theorem claim2_witness :
    aggregateByColumn c2GroupA (fun r => r.customerRoute) "NJ>LA"
      = aggregateAmendedSpec c2GroupA (fun r => r.customerRoute) "NJ>LA" :=
  claim2_aggregator_amended c2GroupA (fun r => r.customerRoute) "NJ>LA"
